import Mathlib

/-!
Verification development for the Twilio Agent Assistant (WFM) chat front-end
(`agents_skills.py`).  The Python source is shallowly embedded below:

* Python strings are Lean `String`s; the Python string operations used by the
  source (`lower`, `startswith`, `in` (substring), `replace`, `strip`,
  `join`) are modelled by structurally recursive Lean functions on the
  underlying character lists so that every definition evaluates by kernel
  reduction.
* The Twilio client is modelled by a `Backend` value: the two list calls the
  source makes (`workers.list()` and `task_queues.list()`) are `Except Unit`
  values, where `Except.error ()` models a raised transport exception.  A
  worker whose `attributes` field is `none` models a record whose JSON
  attributes payload fails to parse (`json.loads` raising).  A falsy
  `client`/`workspace_sid` pair is modelled by passing `none` for the client.
* The Gemini model is an oracle `String → String` from the full prompt to the
  generated text; `none` models the unconfigured model.
* `st.session_state.messages` is the `List Turn` threaded through the
  handler; `st.error` calls inside `get_realtime_queue_stats` are recorded in
  the `error_displayed` field of its output.
-/

namespace AgentsSkills

/-- Python `s.lower()` (character-wise lowercasing). -/
def lowerStr (s : String) : String := ⟨s.data.map Char.toLower⟩

/-- Python `s.startswith(pat)`. -/
def strStartsWith (s pat : String) : Bool := pat.data.isPrefixOf s.data

/-- Helper for the Python `in` substring test: `pat` occurs inside `l`. -/
def listHasSub (pat : List Char) : List Char → Bool
  | [] => pat.isEmpty
  | c :: t => pat.isPrefixOf (c :: t) || listHasSub pat t

/-- Python `pat in s` (substring containment). -/
def strContains (s pat : String) : Bool := listHasSub pat.data s.data

/-- Fuel-driven worker for Python `s.replace(pat, "")`: removes every
non-overlapping occurrence of `pat`, scanning left to right.  The fuel is the
length of the scanned list, which suffices because each step consumes at
least one character. -/
def replaceAllAux (pat : List Char) : Nat → List Char → List Char
  | _, [] => []
  | 0, s => s
  | fuel + 1, c :: t =>
    if pat.isPrefixOf (c :: t) && !pat.isEmpty then
      replaceAllAux pat fuel (t.drop (pat.length - 1))
    else
      c :: replaceAllAux pat fuel t

/-- Python `s.replace(pat, "")`. -/
def replaceAllStr (s pat : String) : String :=
  ⟨replaceAllAux pat.data s.data.length s.data⟩

/-- Drop leading whitespace characters from a character list. -/
def dropLeadingWS : List Char → List Char
  | [] => []
  | c :: t => if c.isWhitespace then dropLeadingWS t else c :: t

/-- Python `s.strip()`: remove leading and trailing whitespace. -/
def trimStr (s : String) : String :=
  ⟨dropLeadingWS ((dropLeadingWS s.data.reverse).reverse)⟩

/-- Python `sep.join(parts)`. -/
def joinWith (sep : String) : List String → String
  | [] => ""
  | [s] => s
  | s :: r :: t => s ++ sep ++ joinWith sep (r :: t)

/-- One entry of `st.session_state.messages`: a dict
`\x7b"role": ..., "content": ...\x7d`. -/
structure Turn where
  role : String
  content : String
deriving DecidableEq

/-- The decoded worker attributes payload, as the source reads it:
`attributes.get('email', '')`, `attributes.get('roles', [])` and
`attributes.get('routing', \x7b\x7d).get('skills', [])`.  A missing field
decodes to the corresponding default, so an absent `routing.skills` is the
empty list here, exactly as in the source. -/
structure AgentAttributes where
  email : String
  roles : List String
  skills : List String
deriving DecidableEq

/-- A worker record returned by `workers.list()`.  `attributes = none` models
a record whose serialized attributes payload makes `json.loads` raise. -/
structure Worker where
  friendly_name : String
  attributes : Option AgentAttributes
deriving DecidableEq

/-- A task queue returned by `task_queues.list()`.  `realtime` is the result
of fetching this queue's statistics: `Except.error ()` models the fetch
raising, `Except.ok s` models a statistics payload `s` (kept opaque as a
string, as the source passes it through uninterpreted). -/
structure Queue where
  friendly_name : String
  realtime : Except Unit String

/-- The behaviour of the configured Twilio client for one turn: what the two
list calls return, `Except.error ()` modelling a raised transport
exception. -/
structure Backend where
  workers : Except Unit (List Worker)
  queues : Except Unit (List Queue)

/-- Line 70 of the source: match by display name or decoded email, both
lowercased. -/
def matchesQuery (query : String) (w : Worker) (a : AgentAttributes) : Bool :=
  lowerStr w.friendly_name == lowerStr query || lowerStr a.email == lowerStr query

/-- Line 74 of the source: `', '.join(worker_skills) if worker_skills else
'None'`. -/
def skillsString (skills : List String) : String :=
  if skills.isEmpty then "None" else joinWith ", " skills

/-- The worker loop of `find_agent_skills` (lines 64-74).  `Except.error ()`
models an exception escaping the loop body (here: a worker whose attributes
fail to parse); `Except.ok none` models the loop ending without a `return`;
`Except.ok (some r)` models `return r` from inside the loop. -/
def scanWorkers (query : String) : List Worker → Except Unit (Option String)
  | [] => Except.ok none
  | w :: ws =>
    match w.attributes with
    | none => Except.error ()
    | some a =>
      if matchesQuery query w a then
        if a.roles.contains "Agent" then Except.ok (some (skillsString a.skills))
        else scanWorkers query ws
      else scanWorkers query ws

/-- `find_agent_skills(query, client, workspace_sid)` (lines 56-78).
`client = none` models a falsy `client`/`workspace_sid` (the guard on line
60 returns `None`).  A transport exception in `workers.list()` or a parsing
exception inside the loop is caught by the `except` clause, which returns the
string `"Error"`; reaching the end of the loop returns Python `None`,
modelled as `none` (the NotFound outcome). -/
def find_agent_skills (query : String) (client : Option Backend) : Option String :=
  match client with
  | none => none
  | some b =>
    match b.workers with
    | Except.error _ => some "Error"
    | Except.ok ws =>
      match scanWorkers query ws with
      | Except.error _ => some "Error"
      | Except.ok r => r

/-- What one run of `get_realtime_queue_stats` does: whether an inline error
was displayed via `st.error` (the `except` clause, line 52), and the value
returned (line 50 or the trailing `return None`, line 53). -/
structure QueueStatsOutput where
  error_displayed : Bool
  result : Option String
deriving DecidableEq

/-- The queue loop of `get_realtime_queue_stats` (lines 47-50): first queue
whose `friendly_name` exactly equals the target has its statistics fetched
and returned; a raised fetch is `Except.error ()`; no match falls off the
loop. -/
def findQueueStats (target : String) : List Queue → Except Unit (Option String)
  | [] => Except.ok none
  | q :: qs =>
    if q.friendly_name == target then
      match q.realtime with
      | Except.error _ => Except.error ()
      | Except.ok s => Except.ok (some s)
    else findQueueStats target qs

/-- `get_realtime_queue_stats(client, workspace_sid, target_skill_name)`
(lines 39-53).  `client = none` models the falsy guard on line 43.  Any
exception inside the `try` (the list call or a statistics fetch) reaches the
`except` clause: `st.error` displays an inline error, and the function falls
through to `return None`.  Reaching the end of the loop without a match
displays nothing and returns `None`. -/
def get_realtime_queue_stats (target : String)
    (client : Option (Except Unit (List Queue))) : QueueStatsOutput :=
  match client with
  | none => ⟨false, none⟩
  | some (Except.error _) => ⟨true, none⟩
  | some (Except.ok qs) =>
    match findQueueStats target qs with
    | Except.error _ => ⟨true, none⟩
    | Except.ok r => ⟨false, r⟩

/-- The prompt parts built by `generate_ai_response` (lines 89-103), in
source order.  The two data lines are the empty string when the
corresponding argument is falsy (Python `None` or an empty payload). -/
def promptParts (history : List Turn) (new_message : String)
    (twilio_data : Option String) (agent_skills_data : Option String) : List String :=
  ["You are a real-time analyst for all customer support queues at Wise. You are part of the Workforce Management team. You have access to check real-time information in Twilio about queues and agent skills. You can see which agents are assigned to which skills. When someone asks you to check the skills for an agent you need to check the Twilio skills assigned in real time to the agent you are asked to check.",
   "Use the conversation context to provide a relevant answer.",
   "If a user asks for an agent\x27s skills (e.g., \x27What skills does John have?\x27 or \x27What skills does john.doe@wise.com have?\x27), you MUST respond with \x27ACTION_SEARCH_SKILLS: [Agent Name or Email]\x27. Do not add any other text.",
   (match twilio_data with
    | some s => if s == "" then "" else "Available Twilio data: " ++ s
    | none => ""),
   (match agent_skills_data with
    | some s => if s == "" then "" else "Available Agent Skills data: " ++ s
    | none => ""),
   "Conversation:"]
  ++ history.map (fun t => (if t.role == "user" then "User" else "Assistant") ++ ": " ++ t.content)
  ++ ["User: " ++ new_message, "Assistant:"]

/-- `generate_ai_response(history, new_message, twilio_data,
agent_skills_data)` (lines 82-111).  The model oracle is a function from the
full joined prompt to the generated text; `none` models the unconfigured
model, which short-circuits to the fixed unavailable message (line 87). -/
def generate_ai_response (model : Option (String → String)) (history : List Turn)
    (new_message : String) (twilio_data : Option String)
    (agent_skills_data : Option String) : String :=
  match model with
  | none => "The AI model is unavailable due to a configuration error."
  | some m => m (joinWith "\n" (promptParts history new_message twilio_data agent_skills_data))

/-- The literal directive token tested on line 144 and removed on line
145. -/
def directiveTag : String := "ACTION_SEARCH_SKILLS:"

/-- The static keyword table `queue_map` (lines 158-170), in declaration
order (Python dicts iterate in insertion order). -/
def queue_map : List (String × String) :=
  [("ts voice business", "Voice Total Service Business"),
   ("ts voice consumer", "Voice Total Service Consumer"),
   ("ts business", "Total Service Business"),
   ("ts consumer", "Total Service Consumer"),
   ("consumer voice", "Voice Global Consumer Primary"),
   ("consumer chats", "Chat Global Consumer Primary"),
   ("business voice", "Voice Global Business"),
   ("business chats", "Chat Global Business"),
   ("portuguese primary", "Language_Pt"),
   ("consumer emails hrsa", "Bucket_HRSA"),
   ("consumer emails svc", "Bucket_SVC"),
   ("primary business", "Profile_Business")]

/-- The keyword loop (lines 173-177): first table entry whose key is a
substring of the lowercased input wins, and the loop breaks. -/
def resolveQueue (input : String) : List (String × String) → Option String
  | [] => none
  | kv :: rest =>
    if strContains (lowerStr input) kv.1 then some kv.2 else resolveQueue input rest

/-- Line 140: the first generator call of a turn, made after the user turn
has been appended to the history. -/
def initialResponse (model : Option (String → String)) (input : String)
    (msgs : List Turn) : String :=
  generate_ai_response model (msgs ++ [⟨"user", input⟩]) input none none

/-- Line 145: `initial_ai_response.replace("ACTION_SEARCH_SKILLS:",
"").strip()`. -/
def extractedQuery (initial : String) : String :=
  trimStr (replaceAllStr initial directiveTag)

/-- Line 150: the context string injected into the second generator call. -/
def skillsContext (query fs : String) : String :=
  ("The skills for \x27" ++ query ++ "\x27 are: ") ++ fs

/-- Line 154: the fixed reply when the lookup returns Python `None`. -/
def notFoundReply (query : String) : String :=
  "Agent \x27" ++ query ++ "\x27 not found or no skills available."

/-- A record of one `generate_ai_response` invocation made during a turn. -/
structure GenCall where
  history : List Turn
  new_message : String
  twilio_data : Option String
  agent_skills_data : Option String
  response : String
deriving DecidableEq

/-- Everything one processed turn produces: the transcript after the turn,
the final reply shown to the user, the queries passed to
`find_agent_skills`, and the generator invocations in order. -/
structure TurnOutput where
  messages : List Turn
  final_response : String
  skill_queries : List String
  gen_calls : List GenCall
deriving DecidableEq

/-- The first generator call of a turn, as a trace record. -/
def firstGenCall (model : Option (String → String)) (input : String)
    (msgs : List Turn) : GenCall :=
  ⟨msgs ++ [⟨"user", input⟩], input, none, none, initialResponse model input msgs⟩

/-- The `if user_input:` handler (lines 130-193).  The user turn is appended
to the history first (line 138); the first generator call is made (line
140); if its text starts with the directive token and the client is
configured, the skill-lookup branch runs (lines 144-154), otherwise the
queue-stats branch (lines 157-185); finally the reply is appended to the
history (line 193). -/
def user_input_handler (model : Option (String → String)) (client : Option Backend)
    (user_input : String) (messages : List Turn) : TurnOutput :=
  let messages1 := messages ++ [⟨"user", user_input⟩]
  let initial := initialResponse model user_input messages
  let call1 := firstGenCall model user_input messages
  match client, strStartsWith initial directiveTag with
  | some b, true =>
    let query := extractedQuery initial
    match find_agent_skills query (some b) with
    | some fs =>
      let data := skillsContext query fs
      let resp := generate_ai_response model messages1 user_input none (some data)
      ⟨messages1 ++ [⟨"assistant", resp⟩], resp, [query],
       [call1, ⟨messages1, user_input, none, some data, resp⟩]⟩
    | none =>
      let resp := notFoundReply query
      ⟨messages1 ++ [⟨"assistant", resp⟩], resp, [query], [call1]⟩
  | cl, _ =>
    match resolveQueue user_input queue_map, cl with
    | some qname, some b =>
      let so := get_realtime_queue_stats qname (some b.queues)
      let resp := generate_ai_response model messages1 user_input so.result none
      ⟨messages1 ++ [⟨"assistant", resp⟩], resp, [],
       [call1, ⟨messages1, user_input, so.result, none, resp⟩]⟩
    | _, _ =>
      ⟨messages1 ++ [⟨"assistant", initial⟩], initial, [], [call1]⟩

/-- Statement helper: the worker decodes and matches the query neither by
name nor by decoded email. -/
def noMatchB (q : String) (w : Worker) : Bool :=
  match w.attributes with
  | none => false
  | some a => !matchesQuery q w a

/-- Statement helper: the worker decodes and is walked past by the scan,
either because it does not match the query or because its roles lack
"Agent". -/
def passedOverB (q : String) (w : Worker) : Bool :=
  match w.attributes with
  | none => false
  | some a => !matchesQuery q w a || !(a.roles.contains "Agent")

/-- Demo worker: an Agent with two skills. -/
def jane : Worker := ⟨"Jane Roe", some ⟨"jane@co.com", ["Agent"], ["english", "billing"]⟩⟩

/-- Demo worker: a non-Agent with a different name and email. -/
def bob : Worker := ⟨"Bob Png", some ⟨"bob@co.com", ["Supervisor"], ["managing"]⟩⟩

/-- Demo worker: an Agent whose skills list is empty. -/
def janeNoSkills : Worker := ⟨"Jane Roe", some ⟨"jane@co.com", ["Agent"], []⟩⟩

/-- Demo worker: same name and email as `jane` but without the Agent role. -/
def superv : Worker := ⟨"Jane Roe", some ⟨"jane@co.com", ["Supervisor"], ["managing"]⟩⟩

/-- Demo worker: a record whose attributes payload fails to parse. -/
def badWorker : Worker := ⟨"Broken", none⟩

/-- Demo generator oracle: always replies with a skills directive. -/
def genDirective : String → String := fun _ => "ACTION_SEARCH_SKILLS: jane@co.com"

/-- Demo backend: one Agent worker, no queues. -/
def demoBackend : Backend := ⟨Except.ok [jane], Except.ok []⟩

/-- Demo backend: no workers at all. -/
def emptyBackend : Backend := ⟨Except.ok [], Except.ok []⟩

/-! Helper lemmas about the worker scan and the keyword table. -/

/-- If a worker decodes and matches nowhere near acceptance, it is walked
past by the scan. -/
theorem noMatchB_passedOver (q : String) (w : Worker) (h : noMatchB q w = true) :
    passedOverB q w = true := by
  cases ha : w.attributes with
  | none => simp only [noMatchB, ha] at h
            exact absurd h (by simp)
  | some a =>
    simp only [noMatchB, ha] at h
    simp only [passedOverB, ha, h, Bool.true_or]

/-- The worker scan walks past every decoded worker that either does not
match or lacks the Agent role. -/
theorem scanWorkers_skip (q : String) (pre rest : List Worker)
    (h : ∀ w ∈ pre, passedOverB q w = true) :
    scanWorkers q (pre ++ rest) = scanWorkers q rest := by
  induction pre with
  | nil => rfl
  | cons w pre ih =>
    have hw := h w (by simp)
    have hrest : ∀ w' ∈ pre, passedOverB q w' = true :=
      fun w' hw' => h w' (by simp [hw'])
    cases ha : w.attributes with
    | none => simp only [passedOverB, ha] at hw
              exact absurd hw (by simp)
    | some a =>
      simp only [passedOverB, ha, Bool.or_eq_true, Bool.not_eq_true'] at hw
      rcases hw with hm | hr
      · simp [scanWorkers, ha, hm, ih hrest]
      · have hr' : "Agent" ∉ a.roles := by simpa using hr
        cases hm : matchesQuery q w a <;> simp [scanWorkers, ha, hm, hr', ih hrest]

/-- Any successful scan result is produced by some reached worker that
decodes, matches the query, and carries the Agent role. -/
theorem scanWorkers_ok_source (q : String) (ws : List Worker) (r : String)
    (h : scanWorkers q ws = Except.ok (some r)) :
    ∃ w ∈ ws, ∃ a, w.attributes = some a ∧ matchesQuery q w a = true ∧
      a.roles.contains "Agent" = true ∧ r = skillsString a.skills := by
  induction ws with
  | nil => simp [scanWorkers] at h
  | cons w ws ih =>
    simp only [scanWorkers] at h
    cases ha : w.attributes with
    | none => rw [ha] at h; simp at h
    | some a =>
      rw [ha] at h
      by_cases hmq : matchesQuery q w a = true
      · by_cases hr : a.roles.contains "Agent" = true
        · simp only [hmq, hr, if_true] at h
          have heq : skillsString a.skills = r := by simpa using h
          exact ⟨w, by simp, a, ha, hmq, hr, heq.symm⟩
        · simp only [hmq, if_true, if_neg hr] at h
          obtain ⟨w', hw', rest⟩ := ih h
          exact ⟨w', by simp [hw'], rest⟩
      · simp only [if_neg hmq] at h
        obtain ⟨w', hw', rest⟩ := ih h
        exact ⟨w', by simp [hw'], rest⟩

/-- The queue loop falls off the end when no queue name equals the
target. -/
theorem findQueueStats_no_match (target : String) (qlist : List Queue)
    (h : ∀ qu ∈ qlist, qu.friendly_name ≠ target) :
    findQueueStats target qlist = Except.ok none := by
  induction qlist with
  | nil => rfl
  | cons q qs ih =>
    have hq : q.friendly_name ≠ target := h q (by simp)
    simp [findQueueStats, beq_iff_eq, hq, ih (fun qu hqu => h qu (by simp [hqu]))]

/-- The keyword loop walks past every table entry whose key is not a
substring of the lowered input. -/
theorem resolveQueue_skip (input : String) (pre rest : List (String × String))
    (h : ∀ kv ∈ pre, strContains (lowerStr input) kv.1 = false) :
    resolveQueue input (pre ++ rest) = resolveQueue input rest := by
  induction pre with
  | nil => rfl
  | cons kv pre ih =>
    have hkv := h kv (by simp)
    simp [resolveQueue, hkv, ih (fun kv' hkv' => h kv' (by simp [hkv']))]

/-! Claim theorems. -/

/-- Claim C2: for every worker list returned by the backend and every query,
if every worker decodes and neither its friendly name nor its decoded email
equals the query case-insensitively, then `find_agent_skills` returns the
NotFound outcome (Python `None`, here `none`) — not a skills string and not
the "Error" string. -/
theorem c2_no_match_is_notfound (q : String) (b : Backend) (ws : List Worker)
    (hw : b.workers = Except.ok ws)
    (h : ∀ w ∈ ws, noMatchB q w = true) :
    find_agent_skills q (some b) = none := by
  have hskip := scanWorkers_skip q ws []
    (fun w hm => noMatchB_passedOver q w (h w hm))
  rw [List.append_nil] at hskip
  simp [find_agent_skills, hw, hskip, scanWorkers]

/-- Witness for C2: a two-worker list in which nobody matches the query. -/
theorem c2_no_match_is_notfound_witness :
    (∀ w ∈ [jane, bob], noMatchB "nobody@co.com" w = true) ∧
    find_agent_skills "nobody@co.com" (some ⟨Except.ok [jane, bob], Except.ok []⟩) = none :=
  ⟨by decide,
   c2_no_match_is_notfound "nobody@co.com" ⟨Except.ok [jane, bob], Except.ok []⟩
     [jane, bob] rfl (by decide)⟩

/-- Claim C3: every successful skill-lookup result originates from a reached
worker that decodes, matches the query case-insensitively, and carries the
"Agent" role; a worker whose roles lack "Agent" is never the source of the
returned skills, even when its name or email matches. -/
theorem c3_non_agent_never_returned (q : String) (b : Backend) (ws : List Worker)
    (r : String) (hw : b.workers = Except.ok ws)
    (hs : scanWorkers q ws = Except.ok (some r)) :
    find_agent_skills q (some b) = some r ∧
    ∃ w ∈ ws, ∃ a, w.attributes = some a ∧ matchesQuery q w a = true ∧
      a.roles.contains "Agent" = true ∧ r = skillsString a.skills := by
  constructor
  · simp [find_agent_skills, hw, hs]
  · exact scanWorkers_ok_source q ws r hs

/-- Witness for C3: a scan that walks past a non-matching non-Agent and
returns the matching Agent's skills. -/
theorem c3_non_agent_never_returned_witness :
    scanWorkers "JANE@CO.COM" [bob, jane] = Except.ok (some "english, billing") ∧
    find_agent_skills "JANE@CO.COM"
      (some ⟨Except.ok [bob, jane], Except.ok []⟩) = some "english, billing" ∧
    ∃ w ∈ [bob, jane], ∃ a, w.attributes = some a ∧
      matchesQuery "JANE@CO.COM" w a = true ∧
      a.roles.contains "Agent" = true ∧ "english, billing" = skillsString a.skills := by
  have h := c3_non_agent_never_returned "JANE@CO.COM"
    ⟨Except.ok [bob, jane], Except.ok []⟩ [bob, jane] "english, billing" rfl rfl
  exact ⟨rfl, h.1, h.2⟩

/-- Claim C4: when the scan reaches a matching Agent-role worker whose
skills list is empty (the source decodes an absent `routing.skills` to the
empty list as well), the lookup returns the literal string "None", which is
a different value from the NotFound outcome `none`. -/
theorem c4_empty_skills_yields_None (q : String) (b : Backend)
    (pre post : List Worker) (w : Worker) (a : AgentAttributes)
    (hw : b.workers = Except.ok (pre ++ w :: post))
    (hpre : ∀ w' ∈ pre, passedOverB q w' = true)
    (ha : w.attributes = some a) (hm : matchesQuery q w a = true)
    (hrole : a.roles.contains "Agent" = true) (hempty : a.skills = []) :
    find_agent_skills q (some b) = some "None" ∧
    some "None" ≠ (none : Option String) := by
  have hskip := scanWorkers_skip q pre (w :: post) hpre
  have hrole' : "Agent" ∈ a.roles := by simpa using hrole
  have hhead : scanWorkers q (w :: post) = Except.ok (some "None") := by
    simp [scanWorkers, ha, hm, hrole', skillsString, hempty]
  refine ⟨?_, by simp⟩
  simp [find_agent_skills, hw, hskip, hhead]

/-- Witness for C4: a matching Agent with an empty skills list, reached past
a non-matching worker. -/
theorem c4_empty_skills_yields_None_witness :
    matchesQuery "jane roe" janeNoSkills ⟨"jane@co.com", ["Agent"], []⟩ = true ∧
    find_agent_skills "jane roe"
      (some ⟨Except.ok [bob, janeNoSkills], Except.ok []⟩) = some "None" :=
  ⟨by decide,
   (c4_empty_skills_yields_None "jane roe" ⟨Except.ok [bob, janeNoSkills], Except.ok []⟩
     [bob] [] janeNoSkills ⟨"jane@co.com", ["Agent"], []⟩ rfl (by decide) rfl
     (by decide) rfl rfl).1⟩

/-- Claim C5: in the queue-stats lookup, a transport exception (in the queue
list call or in the statistics fetch of the matched queue) produces the
Error outcome — the inline error display with a `None` return — while the
absence of any queue whose display name exactly equals the target produces
the NotFound outcome — no error display and a `None` return; the two
outcomes are distinct. -/
theorem c5_queue_error_vs_notfound (target : String) (qlist1 qlist2 : List Queue)
    (h1 : findQueueStats target qlist1 = Except.error ())
    (h2 : ∀ qu ∈ qlist2, qu.friendly_name ≠ target) :
    get_realtime_queue_stats target (some (Except.error ())) =
      ⟨true, none⟩ ∧
    get_realtime_queue_stats target (some (Except.ok qlist1)) = ⟨true, none⟩ ∧
    get_realtime_queue_stats target (some (Except.ok qlist2)) = ⟨false, none⟩ ∧
    (⟨true, none⟩ : QueueStatsOutput) ≠ ⟨false, none⟩ := by
  refine ⟨rfl, ?_, ?_, by decide⟩
  · simp [get_realtime_queue_stats, h1]
  · simp [get_realtime_queue_stats, findQueueStats_no_match target qlist2 h2]

/-- Witness for C5: a queue whose statistics fetch raises, and a queue list
without the target name. -/
theorem c5_queue_error_vs_notfound_witness :
    get_realtime_queue_stats "Voice Global Business"
      (some (Except.ok [⟨"Voice Global Business", Except.error ()⟩])) =
      ⟨true, none⟩ ∧
    get_realtime_queue_stats "Voice Global Business"
      (some (Except.ok [⟨"Chat Global Business", Except.ok "payload"⟩])) =
      ⟨false, none⟩ :=
  have h := c5_queue_error_vs_notfound "Voice Global Business"
    [⟨"Voice Global Business", Except.error ()⟩]
    [⟨"Chat Global Business", Except.ok "payload"⟩] rfl (by decide)
  ⟨h.2.1, h.2.2.1⟩

/-- Claim C6: a transport exception in the worker list call, or an
attribute-parsing exception actually reached during the scan, is caught and
converted to the returned string "Error", a value distinct from the NotFound
outcome `none` that an exhausted scan produces; nothing propagates out of
`find_agent_skills` (its Lean embedding is a total function into
`Option String`). -/
theorem c6_exception_yields_error (q : String) (b1 b2 : Backend) (ws : List Worker)
    (h1 : b1.workers = Except.error ())
    (h2 : b2.workers = Except.ok ws)
    (h3 : scanWorkers q ws = Except.error ()) :
    find_agent_skills q (some b1) = some "Error" ∧
    find_agent_skills q (some b2) = some "Error" ∧
    some "Error" ≠ (none : Option String) := by
  refine ⟨?_, ?_, by simp⟩
  · simp [find_agent_skills, h1]
  · simp [find_agent_skills, h2, h3]

/-- Witness for C6: a backend whose list call raises, and a worker whose
attributes payload fails to parse. -/
theorem c6_exception_yields_error_witness :
    find_agent_skills "jane@co.com"
      (some ⟨Except.error (), Except.ok []⟩) = some "Error" ∧
    find_agent_skills "jane@co.com"
      (some ⟨Except.ok [badWorker], Except.ok []⟩) = some "Error" :=
  have h := c6_exception_yields_error "jane@co.com"
    ⟨Except.error (), Except.ok []⟩ ⟨Except.ok [badWorker], Except.ok []⟩
    [badWorker] rfl rfl rfl
  ⟨h.1, h.2.1⟩

/-- Claim C10: the scan does not stop at the first name/email match — a
matching worker without the "Agent" role is walked past, and whatever the
rest of the list yields is the overall result; in particular a later
matching Agent-role worker has its skills returned. -/
theorem c10_scan_continues_past_non_agent (q : String) (w : Worker)
    (a : AgentAttributes) (ws : List Worker) (qs : Except Unit (List Queue))
    (ha : w.attributes = some a) (hm : matchesQuery q w a = true)
    (hr : a.roles.contains "Agent" = false) :
    scanWorkers q (w :: ws) = scanWorkers q ws ∧
    ∀ r, scanWorkers q ws = Except.ok (some r) →
      find_agent_skills q (some ⟨Except.ok (w :: ws), qs⟩) = some r := by
  have hr' : "Agent" ∉ a.roles := by simpa using hr
  have hskip : scanWorkers q (w :: ws) = scanWorkers q ws := by
    simp [scanWorkers, ha, hm, hr']
  exact ⟨hskip, fun r hrr => by simp [find_agent_skills, hskip, hrr]⟩

/-- Witness for C10: a matching non-Agent ahead of a matching Agent; the
Agent's skills are returned. -/
theorem c10_scan_continues_past_non_agent_witness :
    matchesQuery "jane@co.com" superv ⟨"jane@co.com", ["Supervisor"], ["managing"]⟩ = true ∧
    find_agent_skills "jane@co.com"
      (some ⟨Except.ok [superv, jane], Except.ok []⟩) = some "english, billing" :=
  ⟨by decide,
   (c10_scan_continues_past_non_agent "jane@co.com" superv
     ⟨"jane@co.com", ["Supervisor"], ["managing"]⟩ [jane] (Except.ok [])
     rfl (by decide) rfl).2 "english, billing" rfl⟩

/-- Claim C7: whenever a table key at position `i` is a substring of the
lowercased input and no key declared before it matches, the keyword loop
resolves to the canonical name paired with that key — the earliest declared
match wins, regardless of key length or match position. -/
theorem c7_first_declared_key_wins (input : String) (i : Nat)
    (hi : i < queue_map.length)
    (hmatch : strContains (lowerStr input) ((queue_map.get ⟨i, hi⟩).1) = true)
    (hearlier : ∀ kv ∈ queue_map.take i, strContains (lowerStr input) kv.1 = false) :
    resolveQueue input queue_map = some ((queue_map.get ⟨i, hi⟩).2) := by
  conv_lhs => rw [← List.take_append_drop i queue_map]
  rw [resolveQueue_skip input _ _ hearlier]
  rw [List.drop_eq_getElem_cons hi]
  simp only [List.get_eq_getElem] at hmatch ⊢
  simp [resolveQueue, hmatch]

/-- Witness for C7: two keys of the table are substrings of the same input;
the one declared earlier (position 4, "consumer voice") wins over the later
one (position 6, "business voice"). -/
theorem c7_first_declared_key_wins_witness :
    strContains (lowerStr "business voice consumer voice") "consumer voice" = true ∧
    strContains (lowerStr "business voice consumer voice") "business voice" = true ∧
    resolveQueue "business voice consumer voice" queue_map =
      some "Voice Global Consumer Primary" := by
  refine ⟨by decide, by decide, ?_⟩
  have h := c7_first_declared_key_wins "business voice consumer voice" 4
    (by decide) (by decide) (by decide)
  simpa using h

/-- Claim C8 counterexample: the input "ts business voice" contains the key
"business voice", yet the lookup resolves it to "Total Service Business"
(the earlier key "ts business" also matches), not to "Voice Global
Business" — so an input merely containing "business voice" does not always
resolve to "Voice Global Business". -/
theorem c8_containment_counterexample :
    strContains (lowerStr "ts business voice") "business voice" = true ∧
    resolveQueue "ts business voice" queue_map = some "Total Service Business" ∧
    some "Total Service Business" ≠ some "Voice Global Business" := by
  refine ⟨by decide, by decide, by decide⟩

/-- Claim C8 (amended): an input containing "business voice" — none of whose
six earlier-declared keys match — resolves to "Voice Global Business"; an
input containing "ts consumer" — none of whose three earlier-declared keys
match — resolves to "Total Service Consumer"; and an input of which no
table key is a substring resolves to no queue at all. -/
theorem c8_static_table_resolution (input1 input2 input3 : String)
    (h1 : strContains (lowerStr input1) "business voice" = true)
    (h1e : ∀ kv ∈ queue_map.take 6, strContains (lowerStr input1) kv.1 = false)
    (h2 : strContains (lowerStr input2) "ts consumer" = true)
    (h2e : ∀ kv ∈ queue_map.take 3, strContains (lowerStr input2) kv.1 = false)
    (h3 : ∀ kv ∈ queue_map, strContains (lowerStr input3) kv.1 = false) :
    resolveQueue input1 queue_map = some "Voice Global Business" ∧
    resolveQueue input2 queue_map = some "Total Service Consumer" ∧
    resolveQueue input3 queue_map = none := by
  refine ⟨?_, ?_, ?_⟩
  · conv_lhs => rw [← List.take_append_drop 6 queue_map]
    rw [resolveQueue_skip input1 _ _ h1e]
    rw [show queue_map.drop 6 =
      ("business voice", "Voice Global Business") :: queue_map.drop 7 from rfl]
    simp [resolveQueue, h1]
  · conv_lhs => rw [← List.take_append_drop 3 queue_map]
    rw [resolveQueue_skip input2 _ _ h2e]
    rw [show queue_map.drop 3 =
      ("ts consumer", "Total Service Consumer") :: queue_map.drop 4 from rfl]
    simp [resolveQueue, h2]
  · have h := resolveQueue_skip input3 queue_map [] h3
    rw [List.append_nil] at h
    simpa [resolveQueue] using h

/-- Witness for C8: a "business voice" input, a "ts consumer" input, and an
input matching no key. -/
theorem c8_static_table_resolution_witness :
    resolveQueue "please stats for business voice" queue_map =
      some "Voice Global Business" ∧
    resolveQueue "ts consumer stats" queue_map = some "Total Service Consumer" ∧
    resolveQueue "hello world" queue_map = none :=
  c8_static_table_resolution "please stats for business voice" "ts consumer stats"
    "hello world" (by decide) (by decide) (by decide) (by decide) (by decide)

/-- Claim C9: every processed turn, in every branch — directive lookup,
directive not-found reply, queue-stats branch, and plain fallthrough —
appends exactly the user turn and then the final assistant reply to the
transcript. -/
theorem c9_transcript_grows_by_two (model : Option (String → String))
    (client : Option Backend) (input : String) (msgs : List Turn) :
    (user_input_handler model client input msgs).messages =
      msgs ++ [⟨"user", input⟩,
        ⟨"assistant", (user_input_handler model client input msgs).final_response⟩] := by
  unfold user_input_handler
  dsimp only
  split
  · split <;> simp
  · split <;> simp

/-- Claim C1 counterexample: the first generator call returns the directive
"ACTION_SEARCH_SKILLS: jane@co.com" and the client is configured, but the
lookup finds no such agent (`None`), so the controller issues no second
generator call at all — the turn makes exactly one generator call and
replies with the fixed not-found message instead of a second call whose
context contains a lookup result. -/
theorem c1_directive_counterexample :
    ((user_input_handler (some genDirective) (some emptyBackend)
        "What skills does jane have?" []).gen_calls.map fun g => g.response) =
      ["ACTION_SEARCH_SKILLS: jane@co.com"] ∧
    (user_input_handler (some genDirective) (some emptyBackend)
        "What skills does jane have?" []).skill_queries = ["jane@co.com"] ∧
    (user_input_handler (some genDirective) (some emptyBackend)
        "What skills does jane have?" []).final_response =
      "Agent \x27jane@co.com\x27 not found or no skills available." := by
  refine ⟨by decide, by decide, by decide⟩

/-- Claim C1 (amended): when the client and workspace are configured and the
first generator call returns text starting with the directive token, the
controller performs the skill lookup with the extracted, whitespace-trimmed
trailing text as the query; if the lookup result is NotFound the final
reply is the fixed not-found message and no second generator call happens;
otherwise a second generator call is issued whose injected context is the
string built around the lookup result (so the context contains that
result), and the final reply is that second call's output — in neither case
is the raw directive text passed through as the final reply. -/
theorem c1_directive_protocol (m : String → String) (b : Backend) (input : String)
    (msgs : List Turn)
    (hd : strStartsWith (initialResponse (some m) input msgs) directiveTag = true) :
    (user_input_handler (some m) (some b) input msgs).skill_queries =
      [extractedQuery (initialResponse (some m) input msgs)] ∧
    (find_agent_skills (extractedQuery (initialResponse (some m) input msgs)) (some b) = none →
      (user_input_handler (some m) (some b) input msgs).gen_calls =
        [firstGenCall (some m) input msgs] ∧
      (user_input_handler (some m) (some b) input msgs).final_response =
        notFoundReply (extractedQuery (initialResponse (some m) input msgs))) ∧
    ∀ fs, find_agent_skills (extractedQuery (initialResponse (some m) input msgs)) (some b) = some fs →
      ∃ g, (user_input_handler (some m) (some b) input msgs).gen_calls =
             [firstGenCall (some m) input msgs, g] ∧
           g.agent_skills_data =
             some (skillsContext (extractedQuery (initialResponse (some m) input msgs)) fs) ∧
           (∃ c, skillsContext (extractedQuery (initialResponse (some m) input msgs)) fs = c ++ fs) ∧
           (user_input_handler (some m) (some b) input msgs).final_response = g.response := by
  refine ⟨?_, ?_, ?_⟩
  · cases hf : find_agent_skills (extractedQuery (initialResponse (some m) input msgs)) (some b) with
    | none => simp [user_input_handler, hd, hf]
    | some fs => simp [user_input_handler, hd, hf]
  · intro hf
    constructor <;> simp [user_input_handler, hd, hf]
  · intro fs hf
    refine ⟨⟨msgs ++ [⟨"user", input⟩], input, none,
      some (skillsContext (extractedQuery (initialResponse (some m) input msgs)) fs),
      generate_ai_response (some m) (msgs ++ [⟨"user", input⟩]) input none
        (some (skillsContext (extractedQuery (initialResponse (some m) input msgs)) fs))⟩,
      ?_, rfl,
      ⟨"The skills for \x27" ++ extractedQuery (initialResponse (some m) input msgs) ++ "\x27 are: ",
        rfl⟩, ?_⟩
    · simp [user_input_handler, hd, hf, firstGenCall]
    · simp [user_input_handler, hd, hf]

/-- Witness for C1: a configured client holding the matching Agent; the
directive leads to the lookup, a second generator call carrying the skills,
and a final reply equal to that second call's output. -/
theorem c1_directive_protocol_witness :
    strStartsWith (initialResponse (some genDirective) "What skills does jane have?" [])
      directiveTag = true ∧
    (user_input_handler (some genDirective) (some demoBackend)
        "What skills does jane have?" []).skill_queries = ["jane@co.com"] ∧
    ∃ g, (user_input_handler (some genDirective) (some demoBackend)
            "What skills does jane have?" []).gen_calls =
          [firstGenCall (some genDirective) "What skills does jane have?" [], g] ∧
        g.agent_skills_data =
          some "The skills for \x27jane@co.com\x27 are: english, billing" ∧
        (user_input_handler (some genDirective) (some demoBackend)
            "What skills does jane have?" []).final_response = g.response := by
  have h := c1_directive_protocol genDirective demoBackend
    "What skills does jane have?" [] (by decide)
  refine ⟨by decide, ?_, ?_⟩
  · rw [h.1]; decide
  · obtain ⟨g, hg1, hg2, _, hg4⟩ := h.2.2 "english, billing" (by decide)
    exact ⟨g, hg1, by rw [hg2]; decide, hg4⟩

end AgentsSkills
